import Mathlib

/-!
Verification of the invoice-generator application (src/app.py) against its
natural-language specification.  The Python source is shallowly embedded:
monetary values are rationals (the spec speaks of exact three-decimal
arithmetic), quantities are naturals, mutable session state is passed
explicitly, and the generated word-processing document is an explicit
syntax tree of paragraphs and tables holding the texts, alignments and
border settings the source emits.
-/

namespace InvGen

/-- A line item as held in session state: app.py line 413 creates the dict
`\x7bdescription, unit_price, quantity, total_price\x7d`. -/
structure LineItem where
  description : String
  unit_price : ℚ
  quantity : ℕ
  total_price : ℚ
deriving DecidableEq, Repr

/-- app.py line 413: the dict appended by the Add New Item button:
`\x7b"description": "", "unit_price": 0.000, "quantity": 1, "total_price": 0.000\x7d`. -/
def newLineItem : LineItem :=
  { description := "", unit_price := 0, quantity := 1, total_price := 0 }

/-- app.py line 430: `item["total_price"] = item["unit_price"] * item["quantity"]`,
performed on every item during the render loop. -/
def updateTotal (it : LineItem) : LineItem :=
  { it with total_price := it.unit_price * it.quantity }

/-- The items after the render loop has recomputed every total_price. -/
def computeItems (items : List LineItem) : List LineItem :=
  items.map updateTotal

/-- app.py lines 417 and 431: `total_subtotal = 0.000` then
`total_subtotal += item["total_price"]` for each item, after the
total_price update of line 430. -/
def total_subtotal (items : List LineItem) : ℚ :=
  (computeItems items).foldl (fun acc it => acc + it.total_price) 0

/-- app.py line 465: `vat_rate = 0.10`. -/
def vat_rate : ℚ := 10 / 100

/-- app.py line 466: `vat_amount = total_subtotal * vat_rate`. -/
def vat_amount (subtotal : ℚ) : ℚ := subtotal * vat_rate

/-- app.py line 467: `grand_total = total_subtotal + vat_amount`. -/
def grand_total (subtotal : ℚ) : ℚ := subtotal + vat_amount subtotal

/-- Modelled from the spec: rounding to three decimal places, as in the
spec sentence `vat_amount = round(subtotal × 0.10, 3)`.  No such rounding
appears in the source; this definition exists only to state that claim. -/
def round3 (q : ℚ) : ℚ := ((round (q * 1000) : ℤ) : ℚ) / 1000

/-- app.py line 441: `del st.session_state.line_items[i]`. -/
def removeItem (items : List LineItem) (i : ℕ) : List LineItem :=
  items.eraseIdx i

/-- app.py line 421: the label `--- Item \x7bi+1\x7d ---` printed for the item at
zero-based position i, so displayed indices are the positions shifted by one. -/
def displayIndices (items : List LineItem) : List ℕ :=
  (List.range items.length).map (fun j => j + 1)

/- ---------------------------------------------------------------
   Document model: the texts, alignments and explicit border settings
   that generate_invoice_docx (app.py lines 55 to 398) writes into the
   document, as an explicit syntax tree.
   --------------------------------------------------------------- -/

/-- Paragraph alignment, WD_ALIGN_PARAGRAPH in the source. -/
inductive Align where
  | left
  | center
  | right
deriving DecidableEq, Repr

/-- One table cell: its text, its paragraph alignment, and the border
style explicitly applied through set_cell_border (`none` when the cell
inherits the border behaviour of the table style, `some "nil"` when
borders are explicitly removed, `some "single"` when a single border is
explicitly drawn). -/
structure Cell where
  text : String
  align : Align
  border : Option String
deriving DecidableEq, Repr

/-- One table: its table style (`some "Table Grid"` gives the bordered
grid used for the line-items table) and its rows of cells. -/
structure DocTable where
  style : Option String
  rows : List (List Cell)
deriving DecidableEq, Repr

/-- A document block: a paragraph of text or a table. -/
inductive Block where
  | para (text : String)
  | table (t : DocTable)
deriving DecidableEq, Repr

/-- The immutable snapshot built at submission, app.py lines 489 to 504. -/
structure InvoiceRecord where
  to_company : String
  customer_address : String
  customer_tel : String
  attn_person : String
  customer_email : String
  customer_po : String
  invoice_date : String
  sss_invoice_no : String
  customer_vat_no : String
  line_items : List LineItem
  subtotal : ℚ
  vat_amount : ℚ
  grand_total : ℚ
  payment_terms : String
deriving DecidableEq, Repr

/-- Three-digit zero padding of the fractional part. -/
def pad3 (n : ℕ) : String :=
  if n < 10 then "00" ++ toString n
  else if n < 100 then "0" ++ toString n
  else toString n

/-- The `:.3f` fixed-point formatting used for every monetary value in the
document (app.py lines 172, 184, 243, 256, 270).  The value is scaled by
1000, rounded to the nearest integer and printed with three decimals; a
negative value keeps its minus sign.  (Ties round upward here where Python
rounds the underlying binary float to even; no value in the claims sits on
a tie.) -/
def fmt3 (q : ℚ) : String :=
  let m : ℤ := round (q * 1000)
  let sign := if m < 0 then "-" else ""
  let a := m.natAbs
  sign ++ toString (a / 1000) ++ "." ++ pad3 (a % 1000)

/-- A cell of the header-information table: plain left text with borders
explicitly removed (app.py lines 98 to 108). -/
def infoCell (t : String) : Cell := ⟨t, Align.left, some "nil"⟩

/-- The data_rows of app.py lines 89 to 96, filled into the six-row
header-information table. -/
def headerInfoRows (r : InvoiceRecord) : List (List Cell) :=
  [[infoCell "To:", infoCell r.to_company, infoCell "Date:", infoCell r.invoice_date],
   [infoCell "Address:", infoCell r.customer_address,
    infoCell "SSS Invoice No:", infoCell r.sss_invoice_no],
   [infoCell "Tel:", infoCell r.customer_tel,
    infoCell "Customer VAT No.:", infoCell r.customer_vat_no],
   [infoCell "ATTN:", infoCell r.attn_person, infoCell "", infoCell ""],
   [infoCell "Email:", infoCell r.customer_email, infoCell "", infoCell ""],
   [infoCell "Customer PO#:", infoCell r.customer_po, infoCell "", infoCell ""]]

/-- app.py line 78: the borderless header-information table. -/
def headerInfoTable (r : InvoiceRecord) : DocTable := ⟨none, headerInfoRows r⟩

/-- app.py line 136: `item_table_headers`. -/
def item_table_headers : List String :=
  ["No", "Description", "Unit price", "BHD", "Qty", "Total price", "BHD"]

/-- app.py lines 143 to 148: header alignment by header text: No, Qty and
BHD centred; Unit price and Total price right; the rest left. -/
def headerAlign (h : String) : Align :=
  if h = "No" ∨ h = "Qty" ∨ h = "BHD" then Align.center
  else if h = "Unit price" ∨ h = "Total price" then Align.right
  else Align.left

/-- The single header row of the line-items table (app.py lines 136 to
157); cells inherit the Table Grid borders. -/
def headerRow : List Cell :=
  item_table_headers.map (fun h => ⟨h, headerAlign h, none⟩)

/-- One item row of the line-items table, app.py lines 160 to 189: the
zero-based loop index i is shown as i+1 in the No column; description is
left, prices right, BHD and Qty centred. -/
def itemRow (i : ℕ) (it : LineItem) : List Cell :=
  [⟨toString (i + 1), Align.center, none⟩,
   ⟨it.description, Align.left, none⟩,
   ⟨fmt3 it.unit_price, Align.right, none⟩,
   ⟨"BHD", Align.center, none⟩,
   ⟨toString it.quantity, Align.center, none⟩,
   ⟨fmt3 it.total_price, Align.right, none⟩,
   ⟨"BHD", Align.center, none⟩]

/-- The item rows produced by `for i, item in enumerate(...)`, starting
the counter at i. -/
def itemRowsFrom : ℕ → List LineItem → List (List Cell)
  | _, [] => []
  | i, it :: rest => itemRow i it :: itemRowsFrom (i + 1) rest

/-- The item rows in list order, counter starting at zero. -/
def itemRows (items : List LineItem) : List (List Cell) :=
  itemRowsFrom 0 items

/-- A blank padding cell: empty text, default alignment, borders drawn
explicitly through set_cell_border (app.py lines 205 to 209). -/
def blankCell : Cell := ⟨"", Align.left, some "single"⟩

/-- A blank padding row of seven bordered cells. -/
def blankRow : List Cell := List.replicate 7 blankCell

/-- app.py line 202: `min_rows_to_show = 5`. -/
def min_rows_to_show : ℕ := 5

/-- app.py lines 201 to 213: when fewer than min_rows_to_show items
exist, blank bordered rows make up the difference; otherwise nothing is
added. -/
def paddingRows (n : ℕ) : List (List Cell) :=
  if n < min_rows_to_show then List.replicate (min_rows_to_show - n) blankRow
  else []

/-- The line-items table, app.py lines 119 to 213: Table Grid style, one
header row, one row per item in list order, then the padding rows. -/
def itemTable (items : List LineItem) : DocTable :=
  ⟨some "Table Grid", headerRow :: (itemRows items ++ paddingRows items.length)⟩

/-- The borderless summary table, app.py lines 218 to 287: Subtotal, VAT
and Grand Total rows, values right-aligned with a BHD suffix. -/
def summaryTable (r : InvoiceRecord) : DocTable :=
  ⟨none,
   [[⟨"Subtotal:", Align.right, some "nil"⟩,
     ⟨fmt3 r.subtotal ++ " BHD", Align.right, some "nil"⟩],
    [⟨"VAT @ 10%:", Align.right, some "nil"⟩,
     ⟨fmt3 r.vat_amount ++ " BHD", Align.right, some "nil"⟩],
    [⟨"Grand Total in BHD", Align.right, some "nil"⟩,
     ⟨fmt3 r.grand_total ++ " BHD", Align.right, some "nil"⟩]]⟩

/-- The static payment-instruction paragraph, app.py lines 292 to 296. -/
def paymentDetailsText : String :=
  "Payment will be remitted to the following account:" ++
  "\nSalahuddin Softtech Solutions, Arab Bank, A/C No.: 2002-146072-510," ++
  "\nIBAN: BH31 ARAB 0200 2146072510, Swift Code: ARAB BHBM," ++
  "\nAddress: Arab Bank Plc. , P.O Box: 395, Manama, Kingdom of Bahrain."

/-- The borderless acknowledgement row, app.py lines 333 to 374. -/
def ackTable : DocTable :=
  ⟨none,
   [[⟨"(Name)", Align.center, some "nil"⟩,
     ⟨"(Date)", Align.center, some "nil"⟩,
     ⟨"(Signature)", Align.center, some "nil"⟩]]⟩

/-- app.py lines 55 to 398: the document renderer.  It reads only its
record argument and emits, in order, the title, the header-information
table, the line-items table, the summary table, the payment and terms
paragraphs, the acknowledgement row and the closing signature block. -/
def generate_invoice_docx (r : InvoiceRecord) : List Block :=
  [Block.para ("TAX INVOICE/DELIVERY NOTE"),
   Block.table (headerInfoTable r),
   Block.para (""),
   Block.table (itemTable r.line_items),
   Block.table (summaryTable r),
   Block.para (""),
   Block.para paymentDetailsText,
   Block.para ("Terms and Conditions"),
   Block.para ("Payment terms: " ++ r.payment_terms),
   Block.para ("Title and property at all above remain ours until full payment is received and we reserve the rights to withdraw goods/services if not paid for when due."),
   Block.para ("Signing this document implies acceptance of these terms."),
   Block.para ("Received by"),
   Block.table ackTable,
   Block.para (""),
   Block.para ("For SALAHUDDIN SOFTTECH SOLUTIONS"),
   Block.para ("Jobin George"),
   Block.para ("Operations Manager")]

/-- The filename of app.py line 563: `Invoice_<sss_invoice_no>.docx`. -/
def docxFilename (r : InvoiceRecord) : String :=
  "Invoice_" ++ r.sss_invoice_no ++ ".docx"

/- ---------------------------------------------------------------
   Session state and the submit handler.
   --------------------------------------------------------------- -/

/-- The session-state fields touched by the submit handler and the item
buttons (app.py lines 406 to 415 and 481 to 511). -/
structure SessionState where
  line_items : List LineItem
  invoice_data_ready : Bool
  generated_docx_data : Option (List Block)
  generated_docx_filename : Option String
  invoice_data_for_preview : Option InvoiceRecord
deriving DecidableEq, Repr

/-- The header-field widget values read inside the form, app.py lines
452 to 463 and 476. -/
structure HeaderInput where
  to_company : String
  customer_address : String
  customer_tel : String
  attn_person : String
  customer_email : String
  customer_po : String
  invoice_date : String
  sss_invoice_no : String
  customer_vat_no : String
  payment_terms : String
deriving DecidableEq, Repr

/-- app.py lines 412 to 415: the Add New Item button appends the default
item, hides the preview and clears any generated document. -/
def addNewItem (st : SessionState) : SessionState :=
  { st with line_items := st.line_items ++ [newLineItem],
            invoice_data_ready := false,
            generated_docx_data := none }

/-- The invoice_data dict built on successful submission, app.py lines
489 to 504, from the header widgets and the current line items (whose
total_price fields the render loop has already recomputed). -/
def mkInvoiceRecord (h : HeaderInput) (items : List LineItem) : InvoiceRecord :=
  { to_company := h.to_company,
    customer_address := h.customer_address,
    customer_tel := h.customer_tel,
    attn_person := h.attn_person,
    customer_email := h.customer_email,
    customer_po := h.customer_po,
    invoice_date := h.invoice_date,
    sss_invoice_no := h.sss_invoice_no,
    customer_vat_no := h.customer_vat_no,
    line_items := computeItems items,
    subtotal := total_subtotal items,
    vat_amount := vat_amount (total_subtotal items),
    grand_total := grand_total (total_subtotal items),
    payment_terms := h.payment_terms }

/-- What one submission produces: the new session state, the warning
shown (if any) and the record snapshot (if any). -/
structure SubmitOutcome where
  state : SessionState
  warning : Option String
  record : Option InvoiceRecord
deriving DecidableEq, Repr

/-- app.py lines 481 to 511: the submit handler.  With no line items it
warns and clears the ready flag, the generated bytes and the stored
filename; otherwise it snapshots the record, marks the preview ready and
clears any previously generated bytes. -/
def submitForm (h : HeaderInput) (st : SessionState) : SubmitOutcome :=
  if st.line_items.isEmpty then
    { state := { st with invoice_data_ready := false,
                         generated_docx_data := none,
                         generated_docx_filename := none },
      warning := some ("Please add at least one line item to generate the invoice."),
      record := none }
  else
    let r := mkInvoiceRecord h st.line_items
    { state := { st with invoice_data_for_preview := some r,
                         invoice_data_ready := true,
                         generated_docx_data := none },
      warning := none,
      record := some r }

/-- A concrete header input, from the widget defaults in app.py. -/
def sampleHeader : HeaderInput :=
  { to_company := "ABC Company W.L.L.",
    customer_address := "Building 123, Road 456, Block 789, Manama, Bahrain",
    customer_tel := "+973 17XXXXXX",
    attn_person := "Mr. John Doe",
    customer_email := "john.doe@abccompany.com",
    customer_po := "PO-12345",
    invoice_date := "01-01-2026",
    sss_invoice_no := "SSS-260101-001",
    customer_vat_no := "VAT123456789",
    payment_terms := "30 days from invoice date" }

/-- A concrete record: the spec example item Consulting at 100.000 × 2. -/
def sampleRecord : InvoiceRecord :=
  mkInvoiceRecord sampleHeader [⟨"Consulting", 100, 2, 0⟩]

/- ---------------------------------------------------------------
   Helper lemmas.
   --------------------------------------------------------------- -/

lemma itemRowsFrom_length (k : ℕ) (items : List LineItem) :
    (itemRowsFrom k items).length = items.length := by
  induction items generalizing k with
  | nil => simp [itemRowsFrom]
  | cons x xs ih => simp [itemRowsFrom, ih]

lemma itemRowsFrom_get (k j : ℕ) (items : List LineItem) :
    (itemRowsFrom k items).get? j
      = (items.get? j).map (fun it => itemRow (k + j) it) := by
  induction items generalizing k j with
  | nil => simp [itemRowsFrom]
  | cons x xs ih =>
      cases j with
      | zero => simp [itemRowsFrom]
      | succ j =>
          have h := ih (k + 1) j
          simp only [itemRowsFrom, List.get?_cons_succ, h]
          have hk : k + 1 + j = k + (j + 1) := by omega
          rw [hk]

lemma itemRows_get (j : ℕ) (items : List LineItem) :
    (itemRows items).get? j = (items.get? j).map (fun it => itemRow j it) := by
  have h := itemRowsFrom_get 0 j items
  simpa [itemRows, Nat.zero_add] using h

lemma itemRows_length (items : List LineItem) :
    (itemRows items).length = items.length :=
  itemRowsFrom_length 0 items

lemma fmt3_neg_example : fmt3 (-5 / 2) = "-2.500" := by
  have h : ((-5 / 2 : ℚ)) * 1000 = ((-2500 : ℤ) : ℚ) := by norm_num
  unfold fmt3
  rw [h, round_intCast]
  decide

lemma fmt3_zero : fmt3 0 = "0.000" := by
  have h : ((0 : ℚ)) * 1000 = ((0 : ℤ) : ℚ) := by norm_num
  unfold fmt3
  rw [h, round_intCast]
  decide

lemma updateTotal_total_price (it : LineItem) :
    (updateTotal it).total_price = it.unit_price * it.quantity := rfl

lemma foldl_add_total (l : List LineItem) (a : ℚ) :
    (l.map updateTotal).foldl (fun acc it => acc + it.total_price) a
      = a + (l.map (fun it => it.unit_price * (it.quantity : ℚ))).sum := by
  induction l generalizing a with
  | nil => simp
  | cons x xs ih =>
      simp only [List.map_cons, List.foldl_cons, List.sum_cons, ih,
        updateTotal_total_price]
      ring

lemma total_subtotal_eq_sum (items : List LineItem) :
    total_subtotal items
      = (items.map (fun it => it.unit_price * (it.quantity : ℚ))).sum := by
  simpa [total_subtotal, computeItems] using foldl_add_total items 0

lemma sum_milli (items : List LineItem)
    (h : ∀ it ∈ items, ∃ m : ℤ, it.unit_price = (m : ℚ) / 1000) :
    ∃ M : ℤ, (items.map (fun it => it.unit_price * (it.quantity : ℚ))).sum
      = (M : ℚ) / 1000 := by
  induction items with
  | nil => exact ⟨0, by simp⟩
  | cons x xs ih =>
      obtain ⟨m, hm⟩ := h x (List.mem_cons_self x xs)
      obtain ⟨M, hM⟩ := ih (fun it hit => h it (List.mem_cons_of_mem x hit))
      refine ⟨m * x.quantity + M, ?_⟩
      simp only [List.map_cons, List.sum_cons, hm, hM]
      push_cast
      ring

/- ---------------------------------------------------------------
   C1 and C2.
   --------------------------------------------------------------- -/

/-- C1: for every non-empty list of line items, the subtotal computed at
submission equals the sum of unit_price × quantity over all items; if
every unit price is an exact multiple of 0.001 (the form widget only
yields three-decimal values) then the subtotal is an exact multiple of
0.001 as well; and each item, after the update of line 430, has
total_price = unit_price × quantity. -/
theorem C1_subtotal_sum (items : List LineItem) (hne : items ≠ []) :
    total_subtotal items
        = (items.map (fun it => it.unit_price * (it.quantity : ℚ))).sum
    ∧ (∀ it ∈ computeItems items,
        it.total_price = it.unit_price * (it.quantity : ℚ))
    ∧ ((∀ it ∈ items, ∃ m : ℤ, it.unit_price = (m : ℚ) / 1000) →
        ∃ M : ℤ, total_subtotal items = (M : ℚ) / 1000) := by
  refine ⟨total_subtotal_eq_sum items, ?_, ?_⟩
  · intro it hit
    simp only [computeItems, List.mem_map] at hit
    obtain ⟨x, _, rfl⟩ := hit
    rfl
  · intro h
    obtain ⟨M, hM⟩ := sum_milli items h
    exact ⟨M, by rw [total_subtotal_eq_sum items, hM]⟩

theorem C1_subtotal_sum_witness :
    ([⟨"Consulting", 100, 2, 0⟩] : List LineItem) ≠ []
    ∧ total_subtotal [⟨"Consulting", 100, 2, 0⟩] = 200 := by
  have h := C1_subtotal_sum [⟨"Consulting", 100, 2, 0⟩] (by simp)
  refine ⟨by simp, ?_⟩
  rw [h.1]
  norm_num

/-- C2 counterexample: at subtotal 0.001 (reachable from one item with
unit price 0.001 and quantity 1), the code computes vat_amount = 0.0001,
while round(subtotal × 0.10, 3) = 0; the two differ, so the computed
vat_amount is not the three-decimal rounding the claim states. -/
theorem C2_vat_counterexample :
    total_subtotal [⟨"", 1 / 1000, 1, 0⟩] = 1 / 1000
    ∧ vat_amount (1 / 1000) = 1 / 10000
    ∧ round3 ((1 / 1000) * vat_rate) = 0
    ∧ vat_amount (1 / 1000) ≠ round3 ((1 / 1000) * vat_rate) := by
  refine ⟨?_, ?_, ?_, ?_⟩
  · rw [total_subtotal_eq_sum]
    norm_num
  · norm_num [vat_amount, vat_rate]
  · norm_num [round3, vat_rate, round_eq]
  · norm_num [vat_amount, round3, vat_rate, round_eq]

/-- C2 amended: for every subtotal ≥ 0, the computed vat_amount equals
subtotal × 0.10 exactly, with no rounding applied, and the computed
grand_total equals subtotal + vat_amount. -/
theorem C2_vat_grand_total (s : ℚ) (hs : 0 ≤ s) :
    vat_amount s = s * (10 / 100) ∧ grand_total s = s + vat_amount s :=
  ⟨rfl, rfl⟩

theorem C2_vat_grand_total_witness :
    (0 : ℚ) ≤ 200 ∧ vat_amount 200 = 200 * (10 / 100)
    ∧ grand_total 200 = 200 + vat_amount 200 := by
  refine ⟨by norm_num, ?_, ?_⟩
  · exact (C2_vat_grand_total 200 (by norm_num)).1
  · exact (C2_vat_grand_total 200 (by norm_num)).2

/- ---------------------------------------------------------------
   C3 and C10: the empty-list guard.
   --------------------------------------------------------------- -/

/-- C3: when the line-item list is empty at submission, no record is
produced, no document data exists afterwards, and the warning is shown. -/
theorem C3_empty_submit (h : HeaderInput) (st : SessionState)
    (he : st.line_items = []) :
    (submitForm h st).record = none
    ∧ (submitForm h st).warning
        = some ("Please add at least one line item to generate the invoice.")
    ∧ (submitForm h st).state.generated_docx_data = none := by
  simp [submitForm, he]

theorem C3_empty_submit_witness :
    (⟨[], false, none, none, none⟩ : SessionState).line_items = []
    ∧ ((submitForm sampleHeader ⟨[], false, none, none, none⟩).record = none
      ∧ (submitForm sampleHeader ⟨[], false, none, none, none⟩).warning
          = some ("Please add at least one line item to generate the invoice.")
      ∧ (submitForm sampleHeader
          ⟨[], false, none, none, none⟩).state.generated_docx_data = none) :=
  ⟨rfl, C3_empty_submit sampleHeader ⟨[], false, none, none, none⟩ rfl⟩

/-- C10: a submission rejected for having no line items resets the
session: generated bytes and filename are cleared and the preview-ready
flag is false, so a prior invoice is no longer downloadable. -/
theorem C10_reset_on_empty_submit (h : HeaderInput) (st : SessionState)
    (he : st.line_items = []) :
    (submitForm h st).state.generated_docx_data = none
    ∧ (submitForm h st).state.generated_docx_filename = none
    ∧ (submitForm h st).state.invoice_data_ready = false := by
  simp [submitForm, he]

theorem C10_reset_on_empty_submit_witness :
    (⟨[], true, some (generate_invoice_docx sampleRecord),
        some (docxFilename sampleRecord), some sampleRecord⟩
      : SessionState).line_items = []
    ∧ ((submitForm sampleHeader
          ⟨[], true, some (generate_invoice_docx sampleRecord),
            some (docxFilename sampleRecord),
            some sampleRecord⟩).state.generated_docx_data = none
      ∧ (submitForm sampleHeader
          ⟨[], true, some (generate_invoice_docx sampleRecord),
            some (docxFilename sampleRecord),
            some sampleRecord⟩).state.generated_docx_filename = none
      ∧ (submitForm sampleHeader
          ⟨[], true, some (generate_invoice_docx sampleRecord),
            some (docxFilename sampleRecord),
            some sampleRecord⟩).state.invoice_data_ready = false) :=
  ⟨rfl, C10_reset_on_empty_submit sampleHeader
    ⟨[], true, some (generate_invoice_docx sampleRecord),
      some (docxFilename sampleRecord), some sampleRecord⟩ rfl⟩

/- ---------------------------------------------------------------
   C5: removal.
   --------------------------------------------------------------- -/

/-- C5: removing the item at a valid index i from a list of N items
yields N−1 items, keeps the remaining items in their relative order (the
result is exactly the prefix before i followed by the suffix after i),
and the displayed indices are renumbered 1..N−1. -/
theorem C5_remove_item (l : List LineItem) (i : ℕ) (hi : i < l.length) :
    (removeItem l i).length = l.length - 1
    ∧ removeItem l i = l.take i ++ l.drop (i + 1)
    ∧ displayIndices (removeItem l i)
        = (List.range (l.length - 1)).map (fun j => j + 1) := by
  have hlen : (removeItem l i).length = l.length - 1 := by
    have := List.length_eraseIdx_add_one hi
    simp only [removeItem]
    omega
  refine ⟨hlen, ?_, ?_⟩
  · simpa [removeItem] using List.eraseIdx_eq_take_drop_succ l i
  · simp [displayIndices, hlen]

theorem C5_remove_item_witness :
    0 < ([⟨"a", 1, 1, 0⟩, ⟨"b", 2, 1, 0⟩] : List LineItem).length
    ∧ ((removeItem [⟨"a", 1, 1, 0⟩, ⟨"b", 2, 1, 0⟩] 0).length
          = ([⟨"a", 1, 1, 0⟩, ⟨"b", 2, 1, 0⟩] : List LineItem).length - 1
      ∧ removeItem [⟨"a", 1, 1, 0⟩, ⟨"b", 2, 1, 0⟩] 0
          = ([⟨"a", 1, 1, 0⟩, ⟨"b", 2, 1, 0⟩] : List LineItem).take 0
            ++ ([⟨"a", 1, 1, 0⟩, ⟨"b", 2, 1, 0⟩] : List LineItem).drop 1
      ∧ displayIndices (removeItem [⟨"a", 1, 1, 0⟩, ⟨"b", 2, 1, 0⟩] 0)
          = (List.range
              (([⟨"a", 1, 1, 0⟩, ⟨"b", 2, 1, 0⟩] : List LineItem).length - 1)).map
              (fun j => j + 1)) :=
  ⟨by simp, C5_remove_item [⟨"a", 1, 1, 0⟩, ⟨"b", 2, 1, 0⟩] 0 (by simp)⟩

/- ---------------------------------------------------------------
   C6: defaults of a new item.
   --------------------------------------------------------------- -/

/-- C6 counterexample: the item appended by Add New Item has quantity 1,
not 0, so not every field is created zero-valued. -/
theorem C6_defaults_counterexample :
    newLineItem.quantity = 1 ∧ newLineItem.quantity ≠ 0 :=
  ⟨rfl, by decide⟩

/-- C6 amended: the Add New Item action appends one item whose
description is empty and whose unit_price and total_price are zero, but
whose quantity defaults to 1. -/
theorem C6_defaults (st : SessionState) :
    (addNewItem st).line_items = st.line_items ++ [newLineItem]
    ∧ newLineItem.description = ""
    ∧ newLineItem.unit_price = 0
    ∧ newLineItem.total_price = 0
    ∧ newLineItem.quantity = 1 :=
  ⟨rfl, rfl, rfl, rfl, rfl⟩

/- ---------------------------------------------------------------
   C4: determinism of the renderer.
   --------------------------------------------------------------- -/

/-- C4: the embedded renderer is a pure function of the record: any two
invocations on the same record produce identical documents.  The source
function reads no clock, randomness or mutable state, so the embedding
is a plain function and determinism holds. -/
theorem C4_renderer_deterministic (r₁ r₂ : InvoiceRecord) (h : r₁ = r₂) :
    generate_invoice_docx r₁ = generate_invoice_docx r₂ := by
  rw [h]

theorem C4_renderer_deterministic_witness :
    sampleRecord = sampleRecord
    ∧ generate_invoice_docx sampleRecord = generate_invoice_docx sampleRecord :=
  ⟨rfl, C4_renderer_deterministic sampleRecord sampleRecord rfl⟩

/- ---------------------------------------------------------------
   C7: the line-items table.
   --------------------------------------------------------------- -/

/-- C7: the rendered document contains the line-items table; that table
uses the bordered Table Grid style; its rows are exactly one header row
followed by the item rows and then the padding; the header texts are
[No, Description, Unit price, BHD, Qty, Total price, BHD] with No, Qty
and BHD centred, the price columns right-aligned and Description left;
there is one item row per line item; row j of the item rows is the row
for item j, numbered j+1 in the No column, with the numeric columns
right or centre aligned. -/
theorem C7_item_table_layout (r : InvoiceRecord) :
    Block.table (itemTable r.line_items) ∈ generate_invoice_docx r
    ∧ (itemTable r.line_items).style = some "Table Grid"
    ∧ (itemTable r.line_items).rows
        = headerRow :: (itemRows r.line_items ++ paddingRows r.line_items.length)
    ∧ headerRow.map Cell.text
        = ["No", "Description", "Unit price", "BHD", "Qty", "Total price", "BHD"]
    ∧ headerRow.map Cell.align
        = [Align.center, Align.left, Align.right, Align.center, Align.center,
           Align.right, Align.center]
    ∧ (itemRows r.line_items).length = r.line_items.length
    ∧ (∀ j, (itemRows r.line_items).get? j
        = (r.line_items.get? j).map (fun it => itemRow j it))
    ∧ (∀ j it, (itemRow j it).map Cell.text
        = [toString (j + 1), it.description, fmt3 it.unit_price, "BHD",
           toString it.quantity, fmt3 it.total_price, "BHD"]
      ∧ (itemRow j it).map Cell.align
        = [Align.center, Align.left, Align.right, Align.center, Align.center,
           Align.right, Align.center]) := by
  refine ⟨?_, rfl, rfl, by decide, by decide, itemRows_length r.line_items,
    fun j => itemRows_get j r.line_items, fun j it => ⟨rfl, rfl⟩⟩
  simp [generate_invoice_docx]

/- ---------------------------------------------------------------
   C8: padding of the line-items table.
   --------------------------------------------------------------- -/

/-- C8: the line-items table always holds the header row plus
max(N, 5) further rows: the minimum row count is 5, and exactly
5 − N blank padding rows are appended when N < 5 and none otherwise. -/
theorem C8_min_rows_padding (items : List LineItem) :
    (itemTable items).rows.length = 1 + max items.length 5
    ∧ min_rows_to_show = 5
    ∧ (paddingRows items.length).length
        = (if items.length < 5 then 5 - items.length else 0)
    ∧ (∀ row ∈ paddingRows items.length, row = blankRow) := by
  have h1 : (itemRows items).length = items.length := itemRows_length items
  refine ⟨?_, rfl, ?_, ?_⟩
  · simp only [itemTable, List.length_cons, List.length_append, h1, paddingRows,
      min_rows_to_show]
    by_cases h : items.length < 5
    · simp only [if_pos h, List.length_replicate]
      omega
    · simp only [if_neg h, List.length_nil]
      omega
  · simp only [paddingRows, min_rows_to_show]
    by_cases h : items.length < 5
    · simp [if_pos h]
    · simp [if_neg h]
  · intro row hrow
    simp only [paddingRows, min_rows_to_show] at hrow
    by_cases h : items.length < 5
    · rw [if_pos h] at hrow
      exact List.eq_of_mem_replicate hrow
    · rw [if_neg h] at hrow
      simp at hrow

/- ---------------------------------------------------------------
   C9: totality of the renderer.
   --------------------------------------------------------------- -/

/-- C9: the embedded renderer is a total function with no error path: for
every record, including one with empty text fields or negative values, it
produces the full document of 17 blocks; each item row renders the
description verbatim (even when empty) and the numbers in fixed
three-decimal format, a negative value keeping its minus sign, as the
concrete evaluations of fmt3 show. -/
theorem C9_renderer_total (r : InvoiceRecord) :
    (generate_invoice_docx r).length = 17
    ∧ (∀ j, ((itemRows r.line_items).get? j).map (fun row => row.map Cell.text)
        = (r.line_items.get? j).map (fun it =>
            [toString (j + 1), it.description, fmt3 it.unit_price, "BHD",
             toString it.quantity, fmt3 it.total_price, "BHD"]))
    ∧ fmt3 (-5 / 2) = "-2.500"
    ∧ fmt3 0 = "0.000" := by
  refine ⟨rfl, ?_, fmt3_neg_example, fmt3_zero⟩
  intro j
  rw [itemRows_get j r.line_items]
  cases r.line_items.get? j <;> rfl

end InvGen
